import Mathlib

/-!
Verification of `utils/analisis_telefonos_streaming.py`: a shallow embedding
of the phone-prefix analysis pipeline (CSV registration index, streaming
JSON object reconstruction, per-record classification, temporal
aggregation) together with theorems about its behaviour.

Strings are modelled as lists of characters (`Line`); Python dicts built by
the CSV loader are modelled as insertion-ordered association lists whose
lookup takes the most recent binding (Python assignment overwrites).
`json.loads` is a standard-library call, modelled as an arbitrary parameter
`parse : Line → Option Usuario` (`none` = `JSONDecodeError` or any
per-record exception while reading the value). Float percentages are
modelled as rationals, with Python's banker's rounding.
-/

/-- A Python string: a list of characters. -/
abbrev Line := List Char

/-- ASCII whitespace recognised by Python's `str.strip`. -/
def pyIsSpace (c : Char) : Bool :=
  c = ' ' || c = '\t' || c = '\n' || c = '\r' || c = '\x0b' || c = '\x0c'

/-- Python `str.strip()`: drop whitespace from both ends. -/
def pyStrip (s : Line) : Line :=
  ((s.dropWhile pyIsSpace).reverse.dropWhile pyIsSpace).reverse

/-- Python `re.sub(r'\D', '', s)`: keep only the digit characters. -/
def soloDigitos (s : Line) : Line := s.filter Char.isDigit

/-- Python `s[-10:]`: the last 10 characters of a string. -/
def ultimos10 (s : Line) : Line := s.drop (s.length - 10)

/-- Python `s.split(sep)` for a one-character separator: splits at every
occurrence, preserving empty fields (`''.split(',') = ['']`). -/
def pySplit (sep : Char) : Line → List Line
  | [] => [[]]
  | c :: cs =>
    match pySplit sep cs with
    | [] => [[]]
    | r :: rs => if c = sep then [] :: r :: rs else (c :: r) :: rs

/-- Number of occurrences of a character in a line (Python `s.count(c)`). -/
def cuenta (c : Char) (s : Line) : Nat := (s.filter (fun d => d = c)).length

/-- Python `s.endswith(suf)`. -/
def termina (s suf : Line) : Bool := suf.isSuffixOf s

/-- Python `s.startswith(pre)`. -/
def comienza (s pre : Line) : Bool := pre.isPrefixOf s

/-- `es_numero_mexicano_sin_prefijo` (lines 31–53): a falsy (empty) phone is
`False`; otherwise the phone is "without prefix" iff its digit-only form has
exactly 10 characters. -/
def es_numero_mexicano_sin_prefijo (numero : Line) : Bool :=
  match numero with
  | [] => false
  | _ :: _ => (soloDigitos numero).length == 10

/-- C1: classification as "without prefix" holds iff the digit-only form of the
phone string has length exactly 10 — a pure function of the digit count, so
digit counts 0, 9, 11 and 15 all classify "with prefix". -/
theorem C1_sin_prefijo_iff_diez_digitos (numero : Line) :
    es_numero_mexicano_sin_prefijo numero = true ↔ (soloDigitos numero).length = 10 := by
  cases numero with
  | nil => simp [es_numero_mexicano_sin_prefijo, soloDigitos]
  | cons c cs => simp [es_numero_mexicano_sin_prefijo]

/-! ## Streaming record reconstruction (lines 143–207) -/

/-- Loop state of the reconstructor: `en_objeto`, `objeto_actual`,
`llaves_abiertas` (lines 143–146). -/
structure RState where
  en_objeto : Bool
  objeto_actual : Line
  llaves_abiertas : Int
deriving DecidableEq

/-- The state before the first data line. -/
def estadoInicial : RState := ⟨false, [], 0⟩

/-- `linea.count('{') - linea.count('}')`: the brace-depth change a line
contributes. -/
def deltaLlaves (l : Line) : Int := (cuenta '\x7b' l : Int) - (cuenta '\x7d' l : Int)

/-- `objeto_actual[:-1]` when the line ends in `},`, otherwise the buffer
unchanged (lines 166–170 and 191–195). -/
def quitarComa (buf l : Line) : Line :=
  if termina l ['\x7d', ','] then buf.dropLast else buf


/-- One iteration of the line loop (lines 149–207), restricted to the
buffer-reconstruction part: strips the line, skips blank lines, opens a
buffer on a `{`-starting line, accumulates depth, and returns the completed
object text when the close condition fires. The close condition on a
`{`-starting line mirrors Python's operator precedence at line 164:
`llaves == 0 and endswith('},') or endswith('}')`. -/
def procesarLinea (st : RState) (lineaCruda : Line) : RState × Option Line :=
  let linea := pyStrip lineaCruda
  if linea = [] then (st, none)
  else if st.en_objeto = false then
    if comienza linea ['\x7b'] = true then
      let objeto := linea
      let llaves := deltaLlaves linea
      if (llaves = 0 ∧ termina linea ['\x7d', ','] = true) ∨ termina linea ['\x7d'] = true then
        (⟨false, [], llaves⟩, some (quitarComa objeto linea))
      else
        (⟨true, objeto, llaves⟩, none)
    else (st, none)
  else
    let objeto := st.objeto_actual ++ linea
    let llaves := st.llaves_abiertas + deltaLlaves linea
    if llaves = 0 ∧ (termina linea ['\x7d', ','] = true ∨ termina linea ['\x7d'] = true) then
      (⟨false, [], llaves⟩, some (quitarComa objeto linea))
    else
      (⟨true, objeto, llaves⟩, none)

/-- A stripped line is "appended" when it is non-blank and either continues an
open object or opens a new one. -/
def lineaAnexada (st : RState) (l : Line) : Prop :=
  pyStrip l ≠ [] ∧ (st.en_objeto = true ∨ comienza (pyStrip l) ['\x7b'] = true)

/-- The buffer after appending the stripped line. -/
def bufferTras (st : RState) (l : Line) : Line :=
  if st.en_objeto then st.objeto_actual ++ pyStrip l else pyStrip l

/-- The running brace depth after appending the stripped line. -/
def profundidadTras (st : RState) (l : Line) : Int :=
  if st.en_objeto then st.llaves_abiertas + deltaLlaves (pyStrip l) else deltaLlaves (pyStrip l)

/-- The line closes an object textually: it ends with `}` or `},`. -/
def cierraObjeto (l : Line) : Bool := termina l ['\x7d'] || termina l ['\x7d', ',']

/-- Well-indented (pretty-printed) line: if it both starts with `{` and ends
with `}` then it is a complete one-line object, hence brace-balanced. Every
line of a pretty-printed JSON array satisfies this. -/
def lineaBienImpresa (l : Line) : Prop :=
  comienza l ['\x7b'] = true → termina l ['\x7d'] = true → deltaLlaves l = 0

/-- C2: on well-formed pretty-printed input the reconstructor hands a buffer
to the classifier exactly when the running brace depth has returned to zero
and the appended line ends with `}` or `},`; the emitted buffer is the
accumulated text with a trailing comma stripped, and the buffer is reset.
In particular it never emits while the depth is nonzero. -/
theorem C2_emision_en_profundidad_cero (st : RState) (linea : Line)
    (hpp : lineaBienImpresa (pyStrip linea)) :
    ((procesarLinea st linea).2 ≠ none ↔
      (lineaAnexada st linea ∧ profundidadTras st linea = 0 ∧
        cierraObjeto (pyStrip linea) = true)) ∧
    (∀ buf, (procesarLinea st linea).2 = some buf →
      buf = quitarComa (bufferTras st linea) (pyStrip linea) ∧
      (procesarLinea st linea).1.en_objeto = false ∧
      (procesarLinea st linea).1.objeto_actual = []) := by
  by_cases hblank : pyStrip linea = []
  · have hres : procesarLinea st linea = (st, none) := by
      unfold procesarLinea
      rw [if_pos hblank]
    rw [hres]
    exact ⟨by simp [lineaAnexada, hblank], by intro buf h; cases h⟩
  · by_cases hobj : st.en_objeto = true
    · have hobj' : (st.en_objeto = false) = False := by simp [hobj]
      by_cases hcond : st.llaves_abiertas + deltaLlaves (pyStrip linea) = 0 ∧
          (termina (pyStrip linea) ['\x7d', ','] = true ∨ termina (pyStrip linea) ['\x7d'] = true)
      · have hres : procesarLinea st linea =
            (⟨false, [], st.llaves_abiertas + deltaLlaves (pyStrip linea)⟩,
              some (quitarComa (st.objeto_actual ++ pyStrip linea) (pyStrip linea))) := by
          unfold procesarLinea
          simp only [if_neg hblank, if_neg (show ¬st.en_objeto = false by simp [hobj]),
            if_pos hcond]
        rw [hres]
        constructor
        · constructor
          · intro _
            refine ⟨⟨hblank, Or.inl hobj⟩, ?_, ?_⟩
            · simp [profundidadTras, hobj, hcond.1]
            · rcases hcond.2 with h | h <;> simp [cierraObjeto, h]
          · intro _
            simp
        · intro buf h
          injection h with h
          exact ⟨h.symm ▸ by simp [bufferTras, hobj], rfl, rfl⟩
      · have hres : procesarLinea st linea =
            (⟨true, st.objeto_actual ++ pyStrip linea,
              st.llaves_abiertas + deltaLlaves (pyStrip linea)⟩, none) := by
          unfold procesarLinea
          simp only [if_neg hblank, if_neg (show ¬st.en_objeto = false by simp [hobj]),
            if_neg hcond]
        rw [hres]
        constructor
        · constructor
          · intro h
            exact absurd rfl h
          · rintro ⟨_, hdep, hfin⟩
            exfalso
            apply hcond
            refine ⟨by simpa [profundidadTras, hobj] using hdep, ?_⟩
            simp only [cierraObjeto, Bool.or_eq_true] at hfin
            exact hfin.symm
        · intro buf h
          cases h
    · have hobjF : st.en_objeto = false := by
        cases h : st.en_objeto
        · rfl
        · exact absurd h hobj
      by_cases hstart : comienza (pyStrip linea) ['\x7b'] = true
      · by_cases hcond : (deltaLlaves (pyStrip linea) = 0 ∧
            termina (pyStrip linea) ['\x7d', ','] = true) ∨
            termina (pyStrip linea) ['\x7d'] = true
        · have hdep0 : deltaLlaves (pyStrip linea) = 0 := by
            rcases hcond with ⟨h0, _⟩ | h1
            · exact h0
            · exact hpp hstart h1
          have hres : procesarLinea st linea =
              (⟨false, [], deltaLlaves (pyStrip linea)⟩,
                some (quitarComa (pyStrip linea) (pyStrip linea))) := by
            unfold procesarLinea
            simp only [if_neg hblank, if_pos hobjF, if_pos hstart, if_pos hcond]
          rw [hres]
          constructor
          · constructor
            · intro _
              refine ⟨⟨hblank, Or.inr hstart⟩, ?_, ?_⟩
              · simp [profundidadTras, hobjF, hdep0]
              · rcases hcond with ⟨_, h⟩ | h <;> simp [cierraObjeto, h]
            · intro _
              simp
          · intro buf h
            injection h with h
            exact ⟨h.symm ▸ by simp [bufferTras, hobjF], rfl, rfl⟩
        · have hres : procesarLinea st linea =
              (⟨true, pyStrip linea, deltaLlaves (pyStrip linea)⟩, none) := by
            unfold procesarLinea
            simp only [if_neg hblank, if_pos hobjF, if_pos hstart, if_neg hcond]
          rw [hres]
          constructor
          · constructor
            · intro h
              exact absurd rfl h
            · rintro ⟨_, hdep, hfin⟩
              exfalso
              apply hcond
              simp only [cierraObjeto, Bool.or_eq_true] at hfin
              have hdep' : deltaLlaves (pyStrip linea) = 0 := by
                simpa [profundidadTras, hobjF] using hdep
              rcases hfin with h | h
              · exact Or.inr h
              · exact Or.inl ⟨hdep', h⟩
          · intro buf h
            cases h
      · have hres : procesarLinea st linea = (st, none) := by
          unfold procesarLinea
          simp only [if_neg hblank, if_pos hobjF, if_neg hstart]
        rw [hres]
        constructor
        · constructor
          · intro h
            exact absurd rfl h
          · rintro ⟨⟨_, h⟩, _, _⟩
            rcases h with h | h
            · exact absurd h hobj
            · exact absurd h hstart
        · intro buf h
          cases h

/-- Witness for C2: the single line `{"a": 1},` (well indented) emits a
buffer from the initial state. -/
theorem C2_emision_en_profundidad_cero_witness :
    (procesarLinea estadoInicial ("\x7b\"a\": 1\x7d,".data)).2 ≠ none :=
  (C2_emision_en_profundidad_cero estadoInicial ("\x7b\"a\": 1\x7d,".data)
    (by intro h1 h2; decide)).1.mpr
    ⟨⟨by decide, Or.inr (by decide)⟩, by decide, by decide⟩

/-! ## Registration index loading (`cargar_datos_csv`, lines 55–113) -/

/-- The registration index: an insertion-ordered association list from
10-digit suffixes to raw date strings, modelling the Python dict the loader
builds. -/
abbrev Registros := List (Line × Line)

/-- Python dict lookup: the most recent binding for the key wins, since
`registros[clave] = valor` overwrites. -/
def dictGet (d : Registros) (clave : Line) : Option Line :=
  (d.reverse.find? (fun e => e.1 = clave)).map (fun e => e.2)

/-- Python `list.index`: position of the first occurrence. -/
def idxOf (x : Line) : List Line → Nat
  | [] => 0
  | y :: ys => if y = x then 0 else idxOf x ys + 1

/-- Cleanup of the first header field: `lstrip('﻿')` then `strip()`
(line 82). -/
def limpiaBOM : List Line → List Line
  | [] => []
  | h :: t => pyStrip (h.dropWhile (fun c => c = '﻿')) :: t

def colHostRegister : Line := "hostRegister".data

def colPhone : Line := "phone".data

/-- `cargar_datos_csv` (lines 55–113), on the decoded file content already
split at newlines: parse the header, locate the `hostRegister` and `phone`
columns, then fold over the data lines, keeping for each non-blank line with
enough fields and a phone field of at least 10 digits the last 10 digits as
key, mapped to the raw date field. Without both columns the index is empty
(as it also is on a read error, a path outside this embedding). -/
def cargar_datos_csv (lineas : List Line) : Registros :=
  match lineas with
  | [] => []
  | linea0 :: resto =>
    let encabezado := limpiaBOM (pySplit ',' (pyStrip linea0))
    if colHostRegister ∈ encabezado ∧ colPhone ∈ encabezado then
      let hostRegister_idx := idxOf colHostRegister encabezado
      let phone_idx := idxOf colPhone encabezado
      resto.foldl (fun registros linea =>
        if pyStrip linea ≠ [] then
          let campos := pySplit ',' (pyStrip linea)
          if campos.length ≥ max hostRegister_idx phone_idx + 1 then
            let fecha_registro := campos.getD hostRegister_idx []
            let numero_telefono := campos.getD phone_idx []
            let numero_limpio := soloDigitos numero_telefono
            if numero_limpio.length ≥ 10 then
              registros ++ [(ultimos10 numero_limpio, fecha_registro)]
            else registros
          else registros
        else registros) []
    else []

/-- Lookup in a dict extended with a final binding finds that binding. -/
theorem dictGet_append_ultimo (d : Registros) (k v : Line) :
    dictGet (d ++ [(k, v)]) k = some v := by
  unfold dictGet
  rw [List.reverse_append]
  simp [List.find?]

/-- The date field a data line contributes, given the two column indices. -/
def campoFecha (hIdx : Nat) (l : Line) : Line := (pySplit ',' (pyStrip l)).getD hIdx []

/-- The phone field a data line contributes, given the two column indices. -/
def campoTelefono (pIdx : Nat) (l : Line) : Line := (pySplit ',' (pyStrip l)).getD pIdx []

/-- C7: with a header carrying both required columns, a non-blank data line
with enough fields whose phone field keeps at least 10 digits maps the last
10 of those digits to its raw date field, regardless of what earlier lines
bound that suffix to (last row wins); a line whose phone field keeps fewer
than 10 digits contributes nothing to the index. Consequently the concrete
CSV phone 5215512345678 and JSON phone 15512345678 both reduce to the
suffix 5512345678 and join. -/
theorem C7_indice_de_registro (linea0 l : Line) (pre : List Line)
    (hhost : colHostRegister ∈ limpiaBOM (pySplit ',' (pyStrip linea0)))
    (hphone : colPhone ∈ limpiaBOM (pySplit ',' (pyStrip linea0)))
    (hblank : pyStrip l ≠ [])
    (hlen : (pySplit ',' (pyStrip l)).length ≥
      max (idxOf colHostRegister (limpiaBOM (pySplit ',' (pyStrip linea0))))
          (idxOf colPhone (limpiaBOM (pySplit ',' (pyStrip linea0)))) + 1)
    (hdig : (soloDigitos (campoTelefono
      (idxOf colPhone (limpiaBOM (pySplit ',' (pyStrip linea0)))) l)).length ≥ 10) :
    (dictGet (cargar_datos_csv (linea0 :: (pre ++ [l])))
        (ultimos10 (soloDigitos (campoTelefono
          (idxOf colPhone (limpiaBOM (pySplit ',' (pyStrip linea0)))) l))) =
      some (campoFecha (idxOf colHostRegister (limpiaBOM (pySplit ',' (pyStrip linea0)))) l)) ∧
    (∀ l2, pyStrip l2 ≠ [] →
      (soloDigitos (campoTelefono
        (idxOf colPhone (limpiaBOM (pySplit ',' (pyStrip linea0)))) l2)).length < 10 →
      cargar_datos_csv (linea0 :: (pre ++ [l2])) = cargar_datos_csv (linea0 :: pre)) ∧
    ultimos10 (soloDigitos ("5215512345678".data)) = "5512345678".data ∧
    ultimos10 (soloDigitos ("15512345678".data)) = "5512345678".data := by
  have hcols : colHostRegister ∈ limpiaBOM (pySplit ',' (pyStrip linea0)) ∧
      colPhone ∈ limpiaBOM (pySplit ',' (pyStrip linea0)) := ⟨hhost, hphone⟩
  refine ⟨?_, ?_, by decide, by decide⟩
  · unfold cargar_datos_csv
    simp only [if_pos hcols, List.foldl_append, List.foldl_cons, List.foldl_nil]
    unfold campoTelefono at hdig
    rw [if_pos hblank, if_pos hlen, if_pos hdig]
    exact dictGet_append_ultimo _ _ _
  · intro l2 hblank2 hdig2
    unfold cargar_datos_csv
    simp only [if_pos hcols, List.foldl_append, List.foldl_cons, List.foldl_nil]
    unfold campoTelefono at hdig2
    rw [if_pos hblank2]
    by_cases hlen2 : (pySplit ',' (pyStrip l2)).length ≥
        max (idxOf colHostRegister (limpiaBOM (pySplit ',' (pyStrip linea0))))
            (idxOf colPhone (limpiaBOM (pySplit ',' (pyStrip linea0)))) + 1
    · rw [if_pos hlen2, if_neg (by exact Nat.not_le.mpr hdig2)]
    · rw [if_neg hlen2]

/-- Witness for C7: the concrete CSV `hostRegister,phone` /
`2023-04-05 10:20:30,5215512345678` joined against the JSON phone
`15512345678`. -/
theorem C7_indice_de_registro_witness :
    dictGet (cargar_datos_csv ["hostRegister,phone".data,
        "2023-04-05 10:20:30,5215512345678".data])
      (ultimos10 (soloDigitos ("15512345678".data))) =
      some ("2023-04-05 10:20:30".data) := by
  have h := (C7_indice_de_registro ("hostRegister,phone".data)
      ("2023-04-05 10:20:30,5215512345678".data) []
      (by decide) (by decide) (by decide) (by decide) (by decide)).1
  have hk : ultimos10 (soloDigitos (campoTelefono
      (idxOf colPhone (limpiaBOM (pySplit ',' (pyStrip ("hostRegister,phone".data)))))
      ("2023-04-05 10:20:30,5215512345678".data))) =
      ultimos10 (soloDigitos ("15512345678".data)) := by decide
  have hv : campoFecha (idxOf colHostRegister
      (limpiaBOM (pySplit ',' (pyStrip ("hostRegister,phone".data)))))
      ("2023-04-05 10:20:30,5215512345678".data) = "2023-04-05 10:20:30".data := by decide
  rw [← hk, ← hv]
  exact h

/-! ## Record classification (`procesar_objeto`, lines 228–302) -/

/-- A parsed date-time, as `datetime.strptime` yields it. -/
structure FechaHora where
  year : Nat
  month : Nat
  day : Nat
  hour : Nat
  minute : Nat
  second : Nat
deriving DecidableEq

/-- Gregorian leap year, as `datetime` validates days. -/
def esBisiesto (y : Nat) : Bool :=
  y % 4 = 0 && (y % 100 ≠ 0 || y % 400 = 0)

/-- Days in a month, as `datetime` validates days. -/
def diasEnMes (y m : Nat) : Nat :=
  if m = 2 then (if esBisiesto y then 29 else 28)
  else if m = 4 ∨ m = 6 ∨ m = 9 ∨ m = 11 then 30
  else 31

def valorDigito (c : Char) : Nat := c.toNat - '0'.toNat

/-- Read one or two digit characters greedily, as the `strptime` field
patterns do for `%m`, `%d`, `%H`, `%M`, `%S` (each field is followed by a
non-digit separator or the end, so greediness is faithful). -/
def tomaDigitos2 : Line → Option (Nat × Line)
  | [] => none
  | c :: resto =>
    if c.isDigit then
      match resto with
      | d :: resto2 =>
        if d.isDigit then some (valorDigito c * 10 + valorDigito d, resto2)
        else some (valorDigito c, d :: resto2)
      | [] => some (valorDigito c, [])
    else none

/-- Consume one expected literal character. -/
def esperaChar (c : Char) : Line → Option Line
  | [] => none
  | d :: resto => if d = c then some resto else none

/-- Model of `datetime.strptime(s, '%Y-%m-%d %H:%M:%S')` (line 268): exactly
four digits of year, one or two digits for the other fields, the literal
separators, nothing trailing, and the range and calendar checks the
`datetime` constructor performs (`ValueError` is `none`). -/
def strptimeFecha (s : Line) : Option FechaHora :=
  match s with
  | y1 :: y2 :: y3 :: y4 :: resto =>
    if (y1.isDigit && y2.isDigit && y3.isDigit && y4.isDigit) = true then
      let y := ((valorDigito y1 * 10 + valorDigito y2) * 10 + valorDigito y3) * 10 + valorDigito y4
      (esperaChar '-' resto).bind fun r1 =>
      (tomaDigitos2 r1).bind fun pm =>
      (esperaChar '-' pm.2).bind fun r2 =>
      (tomaDigitos2 r2).bind fun pd =>
      (esperaChar ' ' pd.2).bind fun r3 =>
      (tomaDigitos2 r3).bind fun ph =>
      (esperaChar ':' ph.2).bind fun r4 =>
      (tomaDigitos2 r4).bind fun pmin =>
      (esperaChar ':' pmin.2).bind fun r5 =>
      (tomaDigitos2 r5).bind fun ps =>
      if ps.2 = [] ∧ 1 ≤ y ∧ 1 ≤ pm.1 ∧ pm.1 ≤ 12 ∧ 1 ≤ pd.1 ∧ pd.1 ≤ diasEnMes y pm.1 ∧
          ph.1 ≤ 23 ∧ pmin.1 ≤ 59 ∧ ps.1 ≤ 59 then
        some ⟨y, pm.1, pd.1, ph.1, pmin.1, ps.1⟩
      else none
    else none
  | _ => none

/-- Python `f"{mes:02d}"`: the month zero-padded to two digits. -/
def pad2 (m : Nat) : Line := if m < 10 then '0' :: (toString m).data else (toString m).data

/-- Python `f"{anio}-{mes:02d}"` (line 271): the period key. -/
def periodoDe (anio mes : Nat) : Line := (toString anio).data ++ '-' :: pad2 mes

/-- The sentinel string `'No disponible'`. -/
def noDisponible : Line := "No disponible".data

/-- The `custom_attributes` sub-object: each field `none` when the key is
absent. -/
structure AtributosPersonalizados where
  name : Option Line
  paternal : Option Line
  maternal : Option Line
  entity : Option Line
  fechaRegistro : Option Line
deriving DecidableEq

/-- A parsed user object, restricted to the keys `procesar_objeto` reads;
each field `none` when the key is absent. -/
structure Usuario where
  phone : Option Line
  email : Option Line
  external_id : Option Line
  country : Option Line
  custom_attributes : Option AtributosPersonalizados
deriving DecidableEq

/-- The `info_usuario` dict (lines 252–288): mandatory keys as fields,
conditionally-added keys as `Option` fields (`none` = key absent). -/
structure Info where
  phone : Line
  phone_limpio : Line
  ultimos_10_digitos : Line
  phone_length : Nat
  email : Line
  external_id : Line
  country : Line
  fecha_registro : Line
  anio_registro : Option Nat
  mes_registro : Option Nat
  periodo : Option Line
  nombre : Option Line
  apellido_paterno : Option Line
  apellido_materno : Option Line
  entidad : Option Line
deriving DecidableEq

/-- The classifier's tagged result (lines 290–293). -/
structure ResultadoObjeto where
  sin_prefijo : Bool
  info : Info
deriving DecidableEq


/-- The index key derived from a phone value (line 246): the last 10 digits
of its digit-only form, or all of them when fewer. -/
def claveTelefono (phone : Line) : Line :=
  let numero_limpio := soloDigitos phone
  if numero_limpio.length ≥ 10 then ultimos10 numero_limpio else numero_limpio

/-- The initial `info_usuario` dict (lines 252–261). -/
def infoBase (usuario : Usuario) (phone : Line) : Info :=
  { phone := phone
    phone_limpio := soloDigitos phone
    ultimos_10_digitos := claveTelefono phone
    phone_length := (soloDigitos phone).length
    email := usuario.email.getD noDisponible
    external_id := usuario.external_id.getD noDisponible
    country := usuario.country.getD noDisponible
    fecha_registro := noDisponible
    anio_registro := none
    mes_registro := none
    periodo := none
    nombre := none
    apellido_paterno := none
    apellido_materno := none
    entidad := none }

/-- The CSV-join phase (lines 263–274): when the 10-digit suffix is in the
index, copy the raw date into `fecha_registro` and, when it parses, derive
year, month and the period key; a parse failure is swallowed. -/
def conFechaCSV (fechas_registro_csv : Registros) (phone : Line) (i : Info) : Info :=
  match dictGet fechas_registro_csv (claveTelefono phone) with
  | none => i
  | some fecha =>
    match strptimeFecha fecha with
    | none => { i with fecha_registro := fecha }
    | some f =>
      { i with
        fecha_registro := fecha
        anio_registro := some f.year
        mes_registro := some f.month
        periodo := some (periodoDe f.year f.month) }

/-- The custom-attributes phase (lines 276–288): copy the optional profile
fields, and copy the `fechaRegistro` override into `fecha_registro` when the
latter still equals the sentinel. -/
def conAtributos (usuario : Usuario) (i : Info) : Info :=
  match usuario.custom_attributes with
  | none => i
  | some ca =>
    let conNombres :=
      { i with
        nombre := ca.name
        apellido_paterno := ca.paternal
        apellido_materno := ca.maternal
        entidad := ca.entity }
    match ca.fechaRegistro with
    | some fr =>
      if conNombres.fecha_registro = noDisponible then
        { conNombres with fecha_registro := fr }
      else conNombres
    | none => conNombres

/-- The body of `procesar_objeto` after `json.loads` succeeded
(lines 242–295): `none` when there is no truthy phone, otherwise the
classification flag and the populated `info_usuario`, built in the source's
three phases. -/
def procesar_usuario (usuario : Usuario) (fechas_registro_csv : Registros) :
    Option ResultadoObjeto :=
  match usuario.phone with
  | none => none
  | some phone =>
    if phone = [] then none
    else
      some ⟨es_numero_mexicano_sin_prefijo phone,
            conAtributos usuario (conFechaCSV fechas_registro_csv phone (infoBase usuario phone))⟩

/-- `procesar_objeto` (lines 228–302): `json.loads` is the `parse`
parameter; `none` models `JSONDecodeError` or any other per-record
exception, both of which return `None`. -/
def procesar_objeto (parse : Line → Option Usuario) (objeto_json : Line)
    (fechas_registro_csv : Registros) : Option ResultadoObjeto :=
  (parse objeto_json).bind fun usuario => procesar_usuario usuario fechas_registro_csv

/-- The attribute phase does not touch `anio_registro`, `mes_registro` or
`periodo`. -/
theorem conAtributos_campos_temporales (usuario : Usuario) (i : Info) :
    (conAtributos usuario i).anio_registro = i.anio_registro ∧
    (conAtributos usuario i).mes_registro = i.mes_registro ∧
    (conAtributos usuario i).periodo = i.periodo := by
  obtain ⟨cphone, cemail, cext, ccountry, cca⟩ := usuario
  cases cca with
  | none => simp [conAtributos]
  | some ca =>
    obtain ⟨cn, cp, cm, ce, cf⟩ := ca
    cases cf with
    | none => simp [conAtributos]
    | some fr =>
      by_cases h : i.fecha_registro = noDisponible <;> simp [conAtributos, h]

/-- What the attribute phase does to `fecha_registro`. -/
theorem conAtributos_fecha (usuario : Usuario) (i : Info) :
    (conAtributos usuario i).fecha_registro =
      (match usuario.custom_attributes with
       | some ca =>
         match ca.fechaRegistro with
         | some fr => if i.fecha_registro = noDisponible then fr else i.fecha_registro
         | none => i.fecha_registro
       | none => i.fecha_registro) := by
  obtain ⟨cphone, cemail, cext, ccountry, cca⟩ := usuario
  cases cca with
  | none => simp [conAtributos]
  | some ca =>
    obtain ⟨cn, cp, cm, ce, cf⟩ := ca
    cases cf with
    | none => simp [conAtributos]
    | some fr =>
      by_cases h : i.fecha_registro = noDisponible <;> simp [conAtributos, h]

/-- CSV-join phase when the found date parses. -/
theorem conFechaCSV_fecha_valida (fechas : Registros) (phone : Line) (i : Info)
    (fecha : Line) (f : FechaHora)
    (hd : dictGet fechas (claveTelefono phone) = some fecha)
    (hs : strptimeFecha fecha = some f) :
    conFechaCSV fechas phone i =
      { i with
        fecha_registro := fecha
        anio_registro := some f.year
        mes_registro := some f.month
        periodo := some (periodoDe f.year f.month) } := by
  unfold conFechaCSV
  rw [hd]
  simp [hs]

/-- CSV-join phase when the found date fails to parse. -/
theorem conFechaCSV_fecha_invalida (fechas : Registros) (phone : Line) (i : Info)
    (fecha : Line)
    (hd : dictGet fechas (claveTelefono phone) = some fecha)
    (hs : strptimeFecha fecha = none) :
    conFechaCSV fechas phone i = { i with fecha_registro := fecha } := by
  unfold conFechaCSV
  rw [hd]
  simp [hs]

/-- CSV-join phase when the suffix is not in the index. -/
theorem conFechaCSV_sin_fecha (fechas : Registros) (phone : Line) (i : Info)
    (hd : dictGet fechas (claveTelefono phone) = none) :
    conFechaCSV fechas phone i = i := by
  unfold conFechaCSV
  rw [hd]

/-- After the CSV-join phase on the base record, `fecha_registro` is the
found date, or the sentinel when the lookup missed. -/
theorem conFechaCSV_fecha_registro (fechas : Registros) (phone : Line) (i : Info)
    (hi : i.fecha_registro = noDisponible) :
    (conFechaCSV fechas phone i).fecha_registro =
      (dictGet fechas (claveTelefono phone)).getD noDisponible := by
  cases hd : dictGet fechas (claveTelefono phone) with
  | none => rw [conFechaCSV_sin_fecha fechas phone i hd, hi, Option.getD_none]
  | some fecha =>
    cases hs : strptimeFecha fecha with
    | none => rw [conFechaCSV_fecha_invalida fechas phone i fecha hd hs, Option.getD_some]
    | some f => rw [conFechaCSV_fecha_valida fechas phone i fecha f hd hs, Option.getD_some]

/-- C8 counterexample: a CSV-sourced date IS found in the index, yet because
that date string is literally the sentinel `No disponible`, the
`custom_attributes.fechaRegistro` override is still copied into
`fecha_registro` — refuting "copied only when no CSV-sourced date was
found". -/
theorem C8_contraejemplo_sentinela :
    dictGet [("5512345678".data, noDisponible)] ("5512345678".data) = some noDisponible ∧
    (procesar_usuario
        ⟨some ("5512345678".data), none, none, none,
          some ⟨none, none, none, none, some ("2020-01-01".data)⟩⟩
        [("5512345678".data, noDisponible)]).map (fun r => r.info.fecha_registro) =
      some ("2020-01-01".data) := by
  constructor
  · decide
  · decide

/-- C8 (amended): for a classified record, a CSV date that parses under
`YYYY-MM-DD HH:MM:SS` yields `anio_registro`, `mes_registro` and a
`periodo` of the form year-dash-zero-padded-month; a found date that fails
to parse leaves all three fields absent, as does a missed lookup; and the
`fechaRegistro` override is copied into `fecha_registro` exactly when the
record's `fecha_registro` still equals the sentinel after the CSV phase
(no CSV date found, or the found string literally the sentinel); the
override never produces year/month/period. -/
theorem C8_fecha_de_registro (u : Usuario) (phone : Line) (fechas : Registros)
    (hphone : u.phone = some phone) (hne : phone ≠ []) :
    ∃ res, procesar_usuario u fechas = some res ∧
      (∀ fecha f, dictGet fechas (claveTelefono phone) = some fecha →
        strptimeFecha fecha = some f →
        res.info.anio_registro = some f.year ∧
        res.info.mes_registro = some f.month ∧
        res.info.periodo = some (periodoDe f.year f.month)) ∧
      (∀ fecha, dictGet fechas (claveTelefono phone) = some fecha →
        strptimeFecha fecha = none →
        res.info.anio_registro = none ∧ res.info.mes_registro = none ∧
        res.info.periodo = none) ∧
      (dictGet fechas (claveTelefono phone) = none →
        res.info.anio_registro = none ∧ res.info.mes_registro = none ∧
        res.info.periodo = none) ∧
      res.info.fecha_registro =
        (match u.custom_attributes with
         | some ca =>
           match ca.fechaRegistro with
           | some fr =>
             if (dictGet fechas (claveTelefono phone)).getD noDisponible = noDisponible then fr
             else (dictGet fechas (claveTelefono phone)).getD noDisponible
           | none => (dictGet fechas (claveTelefono phone)).getD noDisponible
         | none => (dictGet fechas (claveTelefono phone)).getD noDisponible) := by
  have hpu : procesar_usuario u fechas =
      some ⟨es_numero_mexicano_sin_prefijo phone,
            conAtributos u (conFechaCSV fechas phone (infoBase u phone))⟩ := by
    simp [procesar_usuario, hphone, hne]
  refine ⟨_, hpu, ?_, ?_, ?_, ?_⟩
  · intro fecha f hd hs
    show ((⟨es_numero_mexicano_sin_prefijo phone,
      conAtributos u (conFechaCSV fechas phone (infoBase u phone))⟩ :
        ResultadoObjeto).info.anio_registro = _) ∧ _ ∧ _
    rw [conFechaCSV_fecha_valida fechas phone (infoBase u phone) fecha f hd hs]
    exact ⟨(conAtributos_campos_temporales u _).1,
      (conAtributos_campos_temporales u _).2.1,
      (conAtributos_campos_temporales u _).2.2⟩
  · intro fecha hd hs
    show ((⟨es_numero_mexicano_sin_prefijo phone,
      conAtributos u (conFechaCSV fechas phone (infoBase u phone))⟩ :
        ResultadoObjeto).info.anio_registro = _) ∧ _ ∧ _
    rw [conFechaCSV_fecha_invalida fechas phone (infoBase u phone) fecha hd hs]
    exact ⟨(conAtributos_campos_temporales u _).1,
      (conAtributos_campos_temporales u _).2.1,
      (conAtributos_campos_temporales u _).2.2⟩
  · intro hd
    show ((⟨es_numero_mexicano_sin_prefijo phone,
      conAtributos u (conFechaCSV fechas phone (infoBase u phone))⟩ :
        ResultadoObjeto).info.anio_registro = _) ∧ _ ∧ _
    rw [conFechaCSV_sin_fecha fechas phone (infoBase u phone) hd]
    exact ⟨(conAtributos_campos_temporales u _).1,
      (conAtributos_campos_temporales u _).2.1,
      (conAtributos_campos_temporales u _).2.2⟩
  · have hf := conAtributos_fecha u (conFechaCSV fechas phone (infoBase u phone))
    rw [conFechaCSV_fecha_registro fechas phone (infoBase u phone) rfl] at hf
    exact hf

/-- Witness for C8: a record with no CSV match and a `fechaRegistro`
override gets the override copied into `fecha_registro`. -/
theorem C8_fecha_de_registro_witness :
    (procesar_usuario
        ⟨some ("5512345678".data), none, none, none,
          some ⟨none, none, none, none, some ("2021-05-06 07:08:09".data)⟩⟩
        []).map (fun r => r.info.fecha_registro) =
      some ("2021-05-06 07:08:09".data) := by
  obtain ⟨res, hres, _, _, _, hfr⟩ := C8_fecha_de_registro
    ⟨some ("5512345678".data), none, none, none,
      some ⟨none, none, none, none, some ("2021-05-06 07:08:09".data)⟩⟩
    ("5512345678".data) [] rfl (by decide)
  have h2 : res.info.fecha_registro = "2021-05-06 07:08:09".data := by
    rw [hfr]
    decide
  rw [hres]
  simp [h2]

/-! ## Temporal aggregation (`analizar_distribucion_temporal`, lines 304–356) -/

/-- Python's `round` with 2 decimals on an exact value: banker's rounding
("round half to even") of the value scaled by 100. Percentages are modelled
as exact rationals. -/
def roundHalfEven (x : ℚ) : ℤ :=
  let n := ⌊x⌋
  let r := x - (n : ℚ)
  if r < 1/2 then n else if 1/2 < r then n + 1 else if n % 2 = 0 then n else n + 1

/-- `round(x, 2)` on an exact value. -/
def round2 (x : ℚ) : ℚ := (roundHalfEven (x * 100) : ℚ) / 100

/-- String comparison as Python `sorted` uses it: lexicographic on code
points. -/
def lexLe : Line → Line → Bool
  | [], _ => true
  | _ :: _, [] => false
  | a :: as, b :: bs => if a < b then true else if b < a then false else lexLe as bs

/-- One entry of `analisis_temporal['datos']` (lines 347–354). -/
structure PeriodBucket where
  periodo : Line
  sin_prefijo : Nat
  con_prefijo : Nat
  total : Nat
  porcentaje_sin_prefijo : ℚ
  porcentaje_con_prefijo : ℚ
deriving DecidableEq

/-- The value `analizar_distribucion_temporal` returns (lines 332–335). -/
structure AnalisisTemporal where
  periodos : List Line
  datos : List PeriodBucket
deriving DecidableEq

/-- The per-period counters built with `defaultdict(int)` (lines 316–326):
the number of records in the list whose `periodo` equals `p` (0 when none,
as the defaultdict yields). Records without a `periodo` key are not
counted. -/
def cuentaPeriodo (usuarios : List Info) (p : Line) : Nat :=
  (usuarios.filter (fun u => u.periodo = some p)).length

/-- `analizar_distribucion_temporal` (lines 304–356): per-period counts for
both lists, the sorted union of the period keys, and one bucket per period
with counts, total and guarded rounded percentages. -/
def analizar_distribucion_temporal (usuarios_sin_prefijo usuarios_con_prefijo : List Info) :
    AnalisisTemporal :=
  let claves := usuarios_sin_prefijo.filterMap (fun u => u.periodo) ++
    usuarios_con_prefijo.filterMap (fun u => u.periodo)
  let todos_periodos := claves.dedup.mergeSort lexLe
  let datos := todos_periodos.map (fun periodo =>
    let sin_prefijo := cuentaPeriodo usuarios_sin_prefijo periodo
    let con_prefijo := cuentaPeriodo usuarios_con_prefijo periodo
    let total := sin_prefijo + con_prefijo
    { periodo := periodo
      sin_prefijo := sin_prefijo
      con_prefijo := con_prefijo
      total := total
      porcentaje_sin_prefijo :=
        if total > 0 then round2 ((sin_prefijo : ℚ) / (total : ℚ) * 100) else 0
      porcentaje_con_prefijo :=
        if total > 0 then round2 ((con_prefijo : ℚ) / (total : ℚ) * 100) else 0 })
  ⟨todos_periodos, datos⟩

theorem lexLe_total (a b : Line) : (lexLe a b || lexLe b a) = true := by
  induction a generalizing b with
  | nil => simp [lexLe]
  | cons x xs ih =>
    cases b with
    | nil => simp [lexLe]
    | cons y ys =>
      rcases lt_trichotomy x y with h | h | h
      · simp [lexLe, h]
      · subst h
        simpa [lexLe] using ih ys
      · simp [lexLe, h, lt_asymm h]

theorem lexLe_trans (a b c : Line) (hab : lexLe a b = true) (hbc : lexLe b c = true) :
    lexLe a c = true := by
  induction a generalizing b c with
  | nil => simp [lexLe]
  | cons x xs ih =>
    cases b with
    | nil => simp [lexLe] at hab
    | cons y ys =>
      cases c with
      | nil => simp [lexLe] at hbc
      | cons z zs =>
        rcases lt_trichotomy x y with hxy | hxy | hxy
        · rcases lt_trichotomy y z with hyz | hyz | hyz
          · simp [lexLe, lt_trans hxy hyz]
          · subst hyz
            simp [lexLe, hxy]
          · simp [lexLe, hyz, lt_asymm hyz] at hbc
        · subst hxy
          rcases lt_trichotomy x z with hxz | hxz | hxz
          · simp [lexLe, hxz]
          · subst hxz
            simp only [lexLe, lt_irrefl, if_neg (lt_irrefl x), if_false] at hab hbc ⊢
            exact ih ys zs hab hbc
          · simp [lexLe, hxz, lt_asymm hxz] at hbc
        · simp [lexLe, hxy, lt_asymm hxy] at hab

/-- A record with a given period and empty profile, for concrete instances. -/
def infoEjemplo (p : Line) : Info :=
  ⟨[], [], [], 0, noDisponible, noDisponible, noDisponible, noDisponible,
    none, none, some p, none, none, none, none⟩

/-- The period key of the concrete aggregation instance. -/
def periodoEjemplo : Line := "2023-05".data

/-- A record lacking the `periodo` key contributes to no per-period count. -/
theorem cuentaPeriodo_append_ninguno (l : List Info) (u : Info) (p : Line)
    (h : u.periodo = none) : cuentaPeriodo (l ++ [u]) p = cuentaPeriodo l p := by
  simp [cuentaPeriodo, List.filter_append, h]

/-- C5: the aggregator emits one bucket per period of the sorted (lexical,
ascending) union of period keys present in either list, carrying both
per-list counts, their sum as total, and the guarded rounded percentages;
records lacking a `periodo` are excluded; and a period with 3 "without
prefix" and 7 "with prefix" records yields counts 3/7, total 10 and
percentages 30 and 70. -/
theorem C5_agregacion_temporal (usuarios_sin_prefijo usuarios_con_prefijo : List Info) :
    ((analizar_distribucion_temporal usuarios_sin_prefijo usuarios_con_prefijo).periodos.Pairwise
      (fun a b => lexLe a b = true)) ∧
    (analizar_distribucion_temporal usuarios_sin_prefijo usuarios_con_prefijo).periodos.Nodup ∧
    (∀ p, p ∈ (analizar_distribucion_temporal usuarios_sin_prefijo usuarios_con_prefijo).periodos ↔
      ((∃ u ∈ usuarios_sin_prefijo, u.periodo = some p) ∨
       (∃ u ∈ usuarios_con_prefijo, u.periodo = some p))) ∧
    ((analizar_distribucion_temporal usuarios_sin_prefijo usuarios_con_prefijo).datos.map
        PeriodBucket.periodo =
      (analizar_distribucion_temporal usuarios_sin_prefijo usuarios_con_prefijo).periodos) ∧
    (∀ b ∈ (analizar_distribucion_temporal usuarios_sin_prefijo usuarios_con_prefijo).datos,
      b.sin_prefijo = cuentaPeriodo usuarios_sin_prefijo b.periodo ∧
      b.con_prefijo = cuentaPeriodo usuarios_con_prefijo b.periodo ∧
      b.total = b.sin_prefijo + b.con_prefijo ∧
      b.porcentaje_sin_prefijo =
        (if b.total > 0 then round2 ((b.sin_prefijo : ℚ) / (b.total : ℚ) * 100) else 0) ∧
      b.porcentaje_con_prefijo =
        (if b.total > 0 then round2 ((b.con_prefijo : ℚ) / (b.total : ℚ) * 100) else 0)) ∧
    (∀ u, u.periodo = none →
      analizar_distribucion_temporal (usuarios_sin_prefijo ++ [u]) usuarios_con_prefijo =
        analizar_distribucion_temporal usuarios_sin_prefijo usuarios_con_prefijo ∧
      analizar_distribucion_temporal usuarios_sin_prefijo (usuarios_con_prefijo ++ [u]) =
        analizar_distribucion_temporal usuarios_sin_prefijo usuarios_con_prefijo) ∧
    (analizar_distribucion_temporal
        (List.replicate 3 (infoEjemplo periodoEjemplo))
        (List.replicate 7 (infoEjemplo periodoEjemplo))).datos =
      [⟨periodoEjemplo, 3, 7, 10, 30, 70⟩] := by
  refine ⟨?_, ?_, ?_, ?_, ?_, ?_, ?_⟩
  · exact List.sorted_mergeSort lexLe_trans lexLe_total _
  · exact ((List.mergeSort_perm _ lexLe).nodup_iff).mpr (List.nodup_dedup _)
  · intro p
    simp [analizar_distribucion_temporal, List.mem_mergeSort, List.mem_dedup,
      List.mem_filterMap]
  · simp only [analizar_distribucion_temporal, List.map_map]
    exact List.map_id'' (fun p => rfl) _
  · intro b hb
    simp only [analizar_distribucion_temporal, List.mem_map] at hb
    obtain ⟨p, hp, rfl⟩ := hb
    exact ⟨rfl, rfl, rfl, rfl, rfl⟩
  · intro u h
    constructor <;>
      simp [analizar_distribucion_temporal, List.filterMap_append, h,
        cuentaPeriodo_append_ninguno _ u _ h]
  · have h1 : ((List.replicate 3 (infoEjemplo periodoEjemplo)).filterMap
        (fun u => u.periodo) ++
        (List.replicate 7 (infoEjemplo periodoEjemplo)).filterMap
        (fun u => u.periodo)).dedup = [periodoEjemplo] := by decide
    have h2 : [periodoEjemplo].mergeSort lexLe = [periodoEjemplo] := by
      simp [List.mergeSort]
    have h3 : cuentaPeriodo (List.replicate 3 (infoEjemplo periodoEjemplo))
        periodoEjemplo = 3 := by decide
    have h7 : cuentaPeriodo (List.replicate 7 (infoEjemplo periodoEjemplo))
        periodoEjemplo = 7 := by decide
    simp only [analizar_distribucion_temporal, h1, h2, List.map_cons, List.map_nil, h3, h7]
    norm_num [round2, roundHalfEven]

/-- Witness for C5: appending a record without a `periodo` key leaves the
temporal aggregation of the 3-against-7 instance unchanged. -/
theorem C5_agregacion_temporal_witness :
    analizar_distribucion_temporal
        (List.replicate 3 (infoEjemplo periodoEjemplo) ++
          [⟨[], [], [], 0, noDisponible, noDisponible, noDisponible, noDisponible,
            none, none, none, none, none, none, none⟩])
        (List.replicate 7 (infoEjemplo periodoEjemplo)) =
      analizar_distribucion_temporal
        (List.replicate 3 (infoEjemplo periodoEjemplo))
        (List.replicate 7 (infoEjemplo periodoEjemplo)) :=
  ((C5_agregacion_temporal (List.replicate 3 (infoEjemplo periodoEjemplo))
      (List.replicate 7 (infoEjemplo periodoEjemplo))).2.2.2.2.2.1
    ⟨[], [], [], 0, noDisponible, noDisponible, noDisponible, noDisponible,
      none, none, none, none, none, none, none⟩ rfl).1

/-! ## The streaming analysis (`analizar_archivo_json_streaming`,
lines 115–226) -/

/-- The accumulator of the line loop: the reconstructor state plus the
classification lists and the two totals (lines 128–132). -/
structure AnalState where
  reconstructor : RState
  usuarios_sin_prefijo : List Info
  usuarios_con_prefijo : List Info
  total_usuarios : Nat
  total_usuarios_con_telefono : Nat
deriving DecidableEq

/-- The loop accumulator before the first data line. -/
def estadoAnalisisInicial : AnalState := ⟨estadoInicial, [], [], 0, 0⟩

/-- Handling of one completed object buffer (lines 172–182 and 197–207):
classify it; a result joins exactly one list and bumps
`total_usuarios_con_telefono`; in every case `total_usuarios` is bumped. -/
def registrarObjeto (parse : Line → Option Usuario) (fechas_registro_csv : Registros)
    (objeto_json : Line) (st : AnalState) : AnalState :=
  match procesar_objeto parse objeto_json fechas_registro_csv with
  | none => { st with total_usuarios := st.total_usuarios + 1 }
  | some res =>
    if res.sin_prefijo then
      { st with
        usuarios_sin_prefijo := st.usuarios_sin_prefijo ++ [res.info]
        total_usuarios := st.total_usuarios + 1
        total_usuarios_con_telefono := st.total_usuarios_con_telefono + 1 }
    else
      { st with
        usuarios_con_prefijo := st.usuarios_con_prefijo ++ [res.info]
        total_usuarios := st.total_usuarios + 1
        total_usuarios_con_telefono := st.total_usuarios_con_telefono + 1 }

/-- One iteration of the full loop body (lines 149–207). -/
def pasoAnalisis (parse : Line → Option Usuario) (fechas_registro_csv : Registros)
    (st : AnalState) (linea : Line) : AnalState :=
  let r := procesarLinea st.reconstructor linea
  match r.2 with
  | none => { st with reconstructor := r.1 }
  | some objeto_json =>
    registrarObjeto parse fechas_registro_csv objeto_json { st with reconstructor := r.1 }

/-- The loop over the data lines. -/
def correrAnalisis (parse : Line → Option Usuario) (fechas_registro_csv : Registros)
    (st : AnalState) (lineas : List Line) : AnalState :=
  lineas.foldl (pasoAnalisis parse fechas_registro_csv) st

/-- The `resultados_analisis` summary dict (lines 213–220). -/
structure Resumen where
  total_usuarios : Nat
  total_con_telefono : Nat
  total_sin_prefijo : Nat
  total_con_prefijo : Nat
  porcentaje_sin_prefijo : ℚ
  analisis_temporal : AnalisisTemporal
deriving DecidableEq

/-- The tuple `analizar_archivo_json_streaming` returns (line 222); on the
abort paths the summary dict is empty, modelled as `none` (line 141). -/
structure ResultadoAnalisis where
  usuarios_sin_prefijo : List Info
  usuarios_con_prefijo : List Info
  total_usuarios_con_telefono : Nat
  resultados_analisis : Option Resumen
deriving DecidableEq

/-- `analizar_archivo_json_streaming` (lines 115–226) over the input file's
lines and the CSV file's lines: build the registration index, demand a first
line that strips to `[`, run the line loop, aggregate, and assemble the
summary. An empty file reads as a first line `''` (what `readline` yields at
EOF), which also aborts. -/
def analizar_archivo_json_streaming (parse : Line → Option Usuario)
    (contenido : List Line) (lineasCSV : List Line) : ResultadoAnalisis :=
  let fechas_registro_csv := cargar_datos_csv lineasCSV
  match contenido with
  | [] => ⟨[], [], 0, none⟩
  | primera_linea :: resto =>
    if pyStrip primera_linea ≠ ['['] then ⟨[], [], 0, none⟩
    else
      let st := correrAnalisis parse fechas_registro_csv estadoAnalisisInicial resto
      let analisis_temporal :=
        analizar_distribucion_temporal st.usuarios_sin_prefijo st.usuarios_con_prefijo
      ⟨st.usuarios_sin_prefijo, st.usuarios_con_prefijo, st.total_usuarios_con_telefono,
        some ⟨st.total_usuarios, st.total_usuarios_con_telefono,
          st.usuarios_sin_prefijo.length, st.usuarios_con_prefijo.length,
          (if st.total_usuarios_con_telefono > 0 then
            round2 ((st.usuarios_sin_prefijo.length : ℚ) /
              (st.total_usuarios_con_telefono : ℚ) * 100)
          else 0),
          analisis_temporal⟩⟩

/-- A parse function that always fails: a stream whose object texts are all
malformed. -/
def parseNinguno : Line → Option Usuario := fun _ => none

/-- A first line (or `''` for an empty file) that does not strip to `[`
aborts the analysis with the empty result tuple. -/
theorem analizar_aborta_primera_invalida (parse : Line → Option Usuario)
    (contenido lineasCSV : List Line)
    (h : pyStrip (contenido.headD []) ≠ ['[']) :
    analizar_archivo_json_streaming parse contenido lineasCSV = ⟨[], [], 0, none⟩ := by
  cases contenido with
  | nil => rfl
  | cons primera_linea resto =>
    simp only [List.headD_cons] at h
    simp only [analizar_archivo_json_streaming]
    rw [if_pos h]

/-- The summary-dict reads `main` performs on the returned
`resultados_analisis` (lines 415–418): `resultados_analisis['total_usuarios']`
and `resultados_analisis['porcentaje_sin_prefijo']`. On the abort paths the
dict is empty (line 141), so the first read raises an uncaught `KeyError`,
modelled as `none`: the run crashes with a traceback instead of exiting
cleanly. -/
def mainLecturasResumen (r : ResultadoAnalisis) : Option (Nat × ℚ) :=
  match r.resultados_analisis with
  | none => none
  | some s => some (s.total_usuarios, s.porcentaje_sin_prefijo)

/-- C3 counterexample: on a file whose first line is not `[`, the analysis
does return the empty results, but `main`'s subsequent
`resultados_analisis['total_usuarios']` read (line 415) finds no such key in
the empty summary — the modelled uncaught `KeyError` — so the run crashes
rather than exiting cleanly. -/
theorem C3_contraejemplo_salida_limpia :
    (analizar_archivo_json_streaming parseNinguno
      ["esto no es json".data] []).resultados_analisis = none ∧
    mainLecturasResumen
      (analizar_archivo_json_streaming parseNinguno ["esto no es json".data] []) = none :=
  ⟨rfl, rfl⟩

/-- C3 (amended): when the first line of the input (or `''` for an empty
file) does not strip to `[`, the analysis itself aborts with empty lists, a
zero count and an empty summary — but the run does not exit cleanly:
`main`'s read of `total_usuarios` from the empty summary dict fails (an
uncaught `KeyError`). -/
theorem C3_primera_linea_invalida (parse : Line → Option Usuario)
    (contenido lineasCSV : List Line)
    (h : pyStrip (contenido.headD []) ≠ ['[']) :
    analizar_archivo_json_streaming parse contenido lineasCSV = ⟨[], [], 0, none⟩ ∧
    mainLecturasResumen (analizar_archivo_json_streaming parse contenido lineasCSV) =
      none := by
  have ha := analizar_aborta_primera_invalida parse contenido lineasCSV h
  refine ⟨ha, ?_⟩
  rw [ha]
  rfl

/-- Witness for C3: a file starting with `42` aborts, and the main-phase
summary read fails on the result. -/
theorem C3_primera_linea_invalida_witness :
    analizar_archivo_json_streaming parseNinguno ["42".data] [] = ⟨[], [], 0, none⟩ ∧
    mainLecturasResumen (analizar_archivo_json_streaming parseNinguno ["42".data] []) =
      none :=
  C3_primera_linea_invalida parseNinguno ["42".data] [] (by decide)

/-- C4 counterexample: a malformed object (its text fails to parse) still
increments `total_usuarios` — refuting "increments neither total counter".
Only `total_usuarios_con_telefono` and the lists are untouched. -/
theorem C4_contraejemplo_total_usuarios :
    procesar_objeto parseNinguno ("\x7b\"x\": 1\x7d".data) [] = none ∧
    (analizar_archivo_json_streaming parseNinguno
        ["[".data, "\x7b\"x\": 1\x7d,".data] []).resultados_analisis.map
      Resumen.total_usuarios = some 1 ∧
    (analizar_archivo_json_streaming parseNinguno
        ["[".data, "\x7b\"x\": 1\x7d,".data] []).resultados_analisis.map
      Resumen.total_con_telefono = some 0 := by
  refine ⟨rfl, ?_, ?_⟩ <;> rfl

/-- C4 (amended): a buffer whose text fails to parse yields no result, joins
neither list, leaves `total_usuarios_con_telefono` untouched (though
`total_usuarios` does count it as a processed object), and the stream
continues on the remaining lines. -/
theorem C4_objeto_invalido (parse : Line → Option Usuario) (fechas : Registros)
    (st : AnalState) (linea buf : Line) (resto : List Line)
    (hemit : (procesarLinea st.reconstructor linea).2 = some buf)
    (hparse : parse buf = none) :
    procesar_objeto parse buf fechas = none ∧
    correrAnalisis parse fechas st (linea :: resto) =
      correrAnalisis parse fechas
        { st with
          reconstructor := (procesarLinea st.reconstructor linea).1
          total_usuarios := st.total_usuarios + 1 } resto := by
  have hpo : procesar_objeto parse buf fechas = none := by
    unfold procesar_objeto
    rw [hparse]
    rfl
  refine ⟨hpo, ?_⟩
  unfold correrAnalisis
  rw [List.foldl_cons]
  congr 1
  simp only [pasoAnalisis, hemit, registrarObjeto, hpo]

/-- Witness for C4: the single-line object `{"x": 1},` with an
always-failing parse only advances the reconstructor and `total_usuarios`. -/
theorem C4_objeto_invalido_witness :
    procesar_objeto parseNinguno ("\x7b\"x\": 1\x7d".data) [] = none ∧
    correrAnalisis parseNinguno [] estadoAnalisisInicial ["\x7b\"x\": 1\x7d,".data] =
      correrAnalisis parseNinguno []
        { estadoAnalisisInicial with
          reconstructor :=
            (procesarLinea estadoAnalisisInicial.reconstructor
              ("\x7b\"x\": 1\x7d,".data)).1
          total_usuarios := estadoAnalisisInicial.total_usuarios + 1 } [] :=
  C4_objeto_invalido parseNinguno [] estadoAnalisisInicial
    ("\x7b\"x\": 1\x7d,".data) ("\x7b\"x\": 1\x7d".data) [] (by decide) rfl

/-- C6: whenever the run produces a summary, its `porcentaje_sin_prefijo`
is `round(total_sin_prefijo / total_con_telefono * 100, 2)` when
`total_con_telefono > 0`, and `0` otherwise. -/
theorem C6_porcentaje_del_resumen (parse : Line → Option Usuario)
    (contenido lineasCSV : List Line) (s : Resumen)
    (h : (analizar_archivo_json_streaming parse contenido lineasCSV).resultados_analisis =
      some s) :
    s.porcentaje_sin_prefijo =
      if s.total_con_telefono > 0 then
        round2 ((s.total_sin_prefijo : ℚ) / (s.total_con_telefono : ℚ) * 100)
      else 0 := by
  cases contenido with
  | nil => cases h
  | cons primera_linea resto =>
    by_cases hp : pyStrip primera_linea ≠ ['[']
    · rw [analizar_aborta_primera_invalida parse (primera_linea :: resto) lineasCSV
        (by simpa using hp)] at h
      cases h
    · simp only [analizar_archivo_json_streaming, if_neg hp] at h
      injection h with h
      subst h
      rfl

/-- Witness for C6: the empty array input yields a summary with zero
percentage. -/
theorem C6_porcentaje_del_resumen_witness :
    (⟨0, 0, 0, 0, 0, analizar_distribucion_temporal [] []⟩ : Resumen).porcentaje_sin_prefijo =
      if (⟨0, 0, 0, 0, 0, analizar_distribucion_temporal [] []⟩ : Resumen).total_con_telefono > 0
      then
        round2
          (((⟨0, 0, 0, 0, 0, analizar_distribucion_temporal [] []⟩ :
            Resumen).total_sin_prefijo : ℚ) /
            ((⟨0, 0, 0, 0, 0, analizar_distribucion_temporal [] []⟩ :
              Resumen).total_con_telefono : ℚ) * 100)
      else 0 :=
  C6_porcentaje_del_resumen parseNinguno ["[".data] []
    ⟨0, 0, 0, 0, 0, analizar_distribucion_temporal [] []⟩ rfl

/-- The counter invariant of the loop accumulator: each record that passes
the phone check joined exactly one list and bumped the with-phone counter
once, and every with-phone record was also counted as processed. -/
def invContadores (st : AnalState) : Prop :=
  st.usuarios_sin_prefijo.length + st.usuarios_con_prefijo.length =
    st.total_usuarios_con_telefono ∧
  st.total_usuarios_con_telefono ≤ st.total_usuarios

/-- One loop iteration preserves the counter invariant. -/
theorem pasoAnalisis_inv (parse : Line → Option Usuario) (fechas : Registros)
    (st : AnalState) (linea : Line) (h : invContadores st) :
    invContadores (pasoAnalisis parse fechas st linea) := by
  simp only [pasoAnalisis]
  cases (procesarLinea st.reconstructor linea).2 with
  | none => exact h
  | some objeto_json =>
    simp only [registrarObjeto]
    cases procesar_objeto parse objeto_json fechas with
    | none => exact ⟨h.1, Nat.le_succ_of_le h.2⟩
    | some res =>
      have h1 := h.1
      have h2 := h.2
      cases hres : res.sin_prefijo with
      | false =>
        simp only [hres, Bool.false_eq_true, if_false]
        refine ⟨?_, Nat.succ_le_succ h2⟩
        simp only [List.length_append, List.length_cons, List.length_nil]
        omega
      | true =>
        simp only [hres, if_true]
        refine ⟨?_, Nat.succ_le_succ h2⟩
        simp only [List.length_append, List.length_cons, List.length_nil]
        omega

/-- The whole loop preserves the counter invariant. -/
theorem correrAnalisis_inv (parse : Line → Option Usuario) (fechas : Registros)
    (st : AnalState) (lineas : List Line) (h : invContadores st) :
    invContadores (correrAnalisis parse fechas st lineas) := by
  induction lineas generalizing st with
  | nil => exact h
  | cons linea resto ih =>
    exact ih (pasoAnalisis parse fechas st linea) (pasoAnalisis_inv parse fechas st linea h)

/-- C9: after any run, `total_usuarios_con_telefono` is the length of the
"without prefix" list plus the length of the "with prefix" list, the summary
(when present) reports that same count, and `total_usuarios` is at least
`total_con_telefono`. -/
theorem C9_invariante_de_contadores (parse : Line → Option Usuario)
    (contenido lineasCSV : List Line) :
    ((analizar_archivo_json_streaming parse contenido lineasCSV).usuarios_sin_prefijo.length +
      (analizar_archivo_json_streaming parse contenido lineasCSV).usuarios_con_prefijo.length =
      (analizar_archivo_json_streaming parse contenido
        lineasCSV).total_usuarios_con_telefono) ∧
    (∀ s, (analizar_archivo_json_streaming parse contenido lineasCSV).resultados_analisis =
        some s →
      s.total_con_telefono =
        (analizar_archivo_json_streaming parse contenido
          lineasCSV).total_usuarios_con_telefono ∧
      s.total_con_telefono ≤ s.total_usuarios) := by
  cases contenido with
  | nil => exact ⟨rfl, by intro s h; cases h⟩
  | cons primera_linea resto =>
    by_cases hp : pyStrip primera_linea ≠ ['[']
    · rw [analizar_aborta_primera_invalida parse (primera_linea :: resto) lineasCSV
        (by simpa using hp)]
      exact ⟨rfl, by intro s h; cases h⟩
    · have hinv := correrAnalisis_inv parse (cargar_datos_csv lineasCSV)
        estadoAnalisisInicial resto ⟨rfl, Nat.le_refl 0⟩
      simp only [analizar_archivo_json_streaming, if_neg hp]
      refine ⟨hinv.1, ?_⟩
      intro s h
      injection h with h
      subst h
      exact ⟨rfl, by simpa [← hinv.1] using hinv.2⟩

/-- Witness for C9: the summary of a run over an empty array satisfies the
counter relations. -/
theorem C9_invariante_de_contadores_witness :
    (⟨0, 0, 0, 0, 0, analizar_distribucion_temporal [] []⟩ : Resumen).total_con_telefono =
      (analizar_archivo_json_streaming parseNinguno ["[".data]
        []).total_usuarios_con_telefono ∧
    (⟨0, 0, 0, 0, 0, analizar_distribucion_temporal [] []⟩ : Resumen).total_con_telefono ≤
      (⟨0, 0, 0, 0, 0, analizar_distribucion_temporal [] []⟩ : Resumen).total_usuarios :=
  (C9_invariante_de_contadores parseNinguno ["[".data] []).2
    ⟨0, 0, 0, 0, 0, analizar_distribucion_temporal [] []⟩ rfl

/-- Erase the four registration-date-derived fields of a record, keeping
everything the classification and profile extraction produced. -/
def sinCamposDeFecha (i : Info) : Info :=
  { i with
    fecha_registro := noDisponible
    anio_registro := none
    mes_registro := none
    periodo := none }

/-- The CSV-join phase only writes the four date fields. -/
theorem sinCampos_conFechaCSV (fechas : Registros) (phone : Line) (i : Info) :
    sinCamposDeFecha (conFechaCSV fechas phone i) = sinCamposDeFecha i := by
  cases hd : dictGet fechas (claveTelefono phone) with
  | none => rw [conFechaCSV_sin_fecha fechas phone i hd]
  | some fecha =>
    cases hs : strptimeFecha fecha with
    | none =>
      rw [conFechaCSV_fecha_invalida fechas phone i fecha hd hs]
      simp [sinCamposDeFecha]
    | some f =>
      rw [conFechaCSV_fecha_valida fechas phone i fecha f hd hs]
      simp [sinCamposDeFecha]

/-- The attribute phase writes, besides the four profile fields, only
`fecha_registro`. -/
theorem sinCampos_conAtributos (u : Usuario) (i : Info) :
    sinCamposDeFecha (conAtributos u i) =
      (match u.custom_attributes with
       | none => sinCamposDeFecha i
       | some ca =>
         { sinCamposDeFecha i with
           nombre := ca.name
           apellido_paterno := ca.paternal
           apellido_materno := ca.maternal
           entidad := ca.entity }) := by
  obtain ⟨up, ue, ux, uc, uca⟩ := u
  cases uca with
  | none => rfl
  | some ca =>
    obtain ⟨cn, cp, cm, ce, cf⟩ := ca
    cases cf with
    | none => rfl
    | some fr =>
      by_cases h : i.fecha_registro = noDisponible <;>
        simp [conAtributos, sinCamposDeFecha, h]

/-- Per-record noninterference: whether a record classifies, which side it
classifies to, and everything in its record except the four date fields, do
not depend on the registration index. -/
theorem procesar_usuario_indep (u : Usuario) (f1 f2 : Registros) :
    (procesar_usuario u f1).map ResultadoObjeto.sin_prefijo =
      (procesar_usuario u f2).map ResultadoObjeto.sin_prefijo ∧
    (procesar_usuario u f1).map (fun r => sinCamposDeFecha r.info) =
      (procesar_usuario u f2).map (fun r => sinCamposDeFecha r.info) := by
  cases hp : u.phone with
  | none =>
    unfold procesar_usuario
    rw [hp]
    exact ⟨rfl, rfl⟩
  | some phone =>
    by_cases hne : phone = []
    · subst hne
      unfold procesar_usuario
      rw [hp]
      exact ⟨rfl, rfl⟩
    · have he : ∀ f : Registros, procesar_usuario u f =
          some ⟨es_numero_mexicano_sin_prefijo phone,
            conAtributos u (conFechaCSV f phone (infoBase u phone))⟩ := by
        intro f
        simp only [procesar_usuario, hp]
        rw [if_neg hne]
      rw [he f1, he f2]
      refine ⟨rfl, ?_⟩
      simp only [Option.map_some']
      rw [sinCampos_conAtributos, sinCampos_conAtributos,
        sinCampos_conFechaCSV, sinCampos_conFechaCSV]

/-- `procesar_objeto` inherits the per-record noninterference. -/
theorem procesar_objeto_indep (parse : Line → Option Usuario) (objeto_json : Line)
    (f1 f2 : Registros) :
    (procesar_objeto parse objeto_json f1).map ResultadoObjeto.sin_prefijo =
      (procesar_objeto parse objeto_json f2).map ResultadoObjeto.sin_prefijo ∧
    (procesar_objeto parse objeto_json f1).map (fun r => sinCamposDeFecha r.info) =
      (procesar_objeto parse objeto_json f2).map (fun r => sinCamposDeFecha r.info) := by
  unfold procesar_objeto
  cases parse objeto_json with
  | none => exact ⟨rfl, rfl⟩
  | some u => simpa using procesar_usuario_indep u f1 f2

/-- Two loop accumulators agree everywhere except possibly in the date
fields of their classified records. -/
def estadosRelacionados (st1 st2 : AnalState) : Prop :=
  st1.reconstructor = st2.reconstructor ∧
  st1.total_usuarios = st2.total_usuarios ∧
  st1.total_usuarios_con_telefono = st2.total_usuarios_con_telefono ∧
  st1.usuarios_sin_prefijo.map sinCamposDeFecha =
    st2.usuarios_sin_prefijo.map sinCamposDeFecha ∧
  st1.usuarios_con_prefijo.map sinCamposDeFecha =
    st2.usuarios_con_prefijo.map sinCamposDeFecha

/-- One loop iteration under two different indices preserves the relation. -/
theorem pasoAnalisis_indep (parse : Line → Option Usuario) (f1 f2 : Registros)
    (st1 st2 : AnalState) (linea : Line) (h : estadosRelacionados st1 st2) :
    estadosRelacionados (pasoAnalisis parse f1 st1 linea)
      (pasoAnalisis parse f2 st2 linea) := by
  obtain ⟨hr, hu, ht, hsin, hcon⟩ := h
  simp only [pasoAnalisis, hr]
  cases (procesarLinea st2.reconstructor linea).2 with
  | none => exact ⟨rfl, hu, ht, hsin, hcon⟩
  | some objeto_json =>
    simp only [registrarObjeto]
    obtain ⟨hflag, hinfo⟩ := procesar_objeto_indep parse objeto_json f1 f2
    cases h1 : procesar_objeto parse objeto_json f1 with
    | none =>
      cases h2 : procesar_objeto parse objeto_json f2 with
      | none => exact ⟨rfl, by simp [hu], ht, hsin, hcon⟩
      | some res2 => rw [h1, h2] at hflag; cases hflag
    | some res1 =>
      cases h2 : procesar_objeto parse objeto_json f2 with
      | none => rw [h1, h2] at hflag; cases hflag
      | some res2 =>
        rw [h1, h2] at hflag hinfo
        simp only [Option.map_some'] at hflag hinfo
        injection hflag with hflag
        injection hinfo with hinfo
        dsimp only
        cases hres : res2.sin_prefijo with
        | false =>
          rw [hflag, hres]
          simp only [Bool.false_eq_true, if_false]
          exact ⟨rfl, by simp [hu], by simp [ht],
            hsin, by simp [List.map_append, hcon, hinfo]⟩
        | true =>
          rw [hflag, hres]
          simp only [if_true]
          exact ⟨rfl, by simp [hu], by simp [ht],
            by simp [List.map_append, hsin, hinfo], hcon⟩

/-- The whole loop under two different indices preserves the relation. -/
theorem correrAnalisis_indep (parse : Line → Option Usuario) (f1 f2 : Registros)
    (st1 st2 : AnalState) (lineas : List Line) (h : estadosRelacionados st1 st2) :
    estadosRelacionados (correrAnalisis parse f1 st1 lineas)
      (correrAnalisis parse f2 st2 lineas) := by
  induction lineas generalizing st1 st2 with
  | nil => exact h
  | cons linea resto ih =>
    exact ih (pasoAnalisis parse f1 st1 linea) (pasoAnalisis parse f2 st2 linea)
      (pasoAnalisis_indep parse f1 f2 st1 st2 linea h)

/-- C10: two runs on the same input with different CSV contents classify
every record identically — the classification flag is a function of the
phone value alone — and agree on every counter and on the percentage; the
index influences only the `fecha_registro`/`anio_registro`/`mes_registro`/
`periodo` fields of the classified records. -/
theorem C10_independencia_del_indice (parse : Line → Option Usuario)
    (contenido lineasCSV1 lineasCSV2 : List Line) :
    (∀ (u : Usuario) (g1 g2 : Registros),
      (procesar_usuario u g1).map ResultadoObjeto.sin_prefijo =
        (procesar_usuario u g2).map ResultadoObjeto.sin_prefijo) ∧
    ((analizar_archivo_json_streaming parse contenido
        lineasCSV1).usuarios_sin_prefijo.map sinCamposDeFecha =
      (analizar_archivo_json_streaming parse contenido
        lineasCSV2).usuarios_sin_prefijo.map sinCamposDeFecha) ∧
    ((analizar_archivo_json_streaming parse contenido
        lineasCSV1).usuarios_con_prefijo.map sinCamposDeFecha =
      (analizar_archivo_json_streaming parse contenido
        lineasCSV2).usuarios_con_prefijo.map sinCamposDeFecha) ∧
    ((analizar_archivo_json_streaming parse contenido
        lineasCSV1).total_usuarios_con_telefono =
      (analizar_archivo_json_streaming parse contenido
        lineasCSV2).total_usuarios_con_telefono) ∧
    ((analizar_archivo_json_streaming parse contenido
        lineasCSV1).resultados_analisis.map Resumen.total_usuarios =
      (analizar_archivo_json_streaming parse contenido
        lineasCSV2).resultados_analisis.map Resumen.total_usuarios) ∧
    ((analizar_archivo_json_streaming parse contenido
        lineasCSV1).resultados_analisis.map Resumen.total_con_telefono =
      (analizar_archivo_json_streaming parse contenido
        lineasCSV2).resultados_analisis.map Resumen.total_con_telefono) ∧
    ((analizar_archivo_json_streaming parse contenido
        lineasCSV1).resultados_analisis.map Resumen.total_sin_prefijo =
      (analizar_archivo_json_streaming parse contenido
        lineasCSV2).resultados_analisis.map Resumen.total_sin_prefijo) ∧
    ((analizar_archivo_json_streaming parse contenido
        lineasCSV1).resultados_analisis.map Resumen.total_con_prefijo =
      (analizar_archivo_json_streaming parse contenido
        lineasCSV2).resultados_analisis.map Resumen.total_con_prefijo) ∧
    ((analizar_archivo_json_streaming parse contenido
        lineasCSV1).resultados_analisis.map Resumen.porcentaje_sin_prefijo =
      (analizar_archivo_json_streaming parse contenido
        lineasCSV2).resultados_analisis.map Resumen.porcentaje_sin_prefijo) := by
  refine ⟨fun u g1 g2 => (procesar_usuario_indep u g1 g2).1, ?_⟩
  cases contenido with
  | nil => exact ⟨rfl, rfl, rfl, rfl, rfl, rfl, rfl, rfl⟩
  | cons primera_linea resto =>
    by_cases hp : pyStrip primera_linea ≠ ['[']
    · rw [analizar_aborta_primera_invalida parse (primera_linea :: resto) lineasCSV1
        (by simpa using hp),
        analizar_aborta_primera_invalida parse (primera_linea :: resto) lineasCSV2
        (by simpa using hp)]
      exact ⟨rfl, rfl, rfl, rfl, rfl, rfl, rfl, rfl⟩
    · obtain ⟨hr, hu, ht, hsin, hcon⟩ := correrAnalisis_indep parse
        (cargar_datos_csv lineasCSV1) (cargar_datos_csv lineasCSV2)
        estadoAnalisisInicial estadoAnalisisInicial resto ⟨rfl, rfl, rfl, rfl, rfl⟩
      have hlsin : (correrAnalisis parse (cargar_datos_csv lineasCSV1)
          estadoAnalisisInicial resto).usuarios_sin_prefijo.length =
          (correrAnalisis parse (cargar_datos_csv lineasCSV2)
          estadoAnalisisInicial resto).usuarios_sin_prefijo.length := by
        simpa using congrArg List.length hsin
      have hlcon : (correrAnalisis parse (cargar_datos_csv lineasCSV1)
          estadoAnalisisInicial resto).usuarios_con_prefijo.length =
          (correrAnalisis parse (cargar_datos_csv lineasCSV2)
          estadoAnalisisInicial resto).usuarios_con_prefijo.length := by
        simpa using congrArg List.length hcon
      simp only [analizar_archivo_json_streaming, if_neg hp, Option.map_some']
      exact ⟨hsin, hcon, ht, by rw [hu], by rw [ht], by rw [hlsin], by rw [hlcon],
        by rw [ht, hlsin]⟩
